import Mathlib

/-!
Shallow embedding of the `tclib` promise/future library
(`src/include/future.hpp`, `src/include/future_errorcodes.hpp`,
`src/include/uniquefunction.hpp`) and proofs of the specified properties.

Modelling conventions:
* `SharedState<Result>` becomes `Cell α ε κ`: `α` is the result type,
  `ε` the type of user exceptions stored in `m_exception`
  (`some e` = non-null `std::exception_ptr`), and `κ` the payload type of a
  stored continuation (`m_then`; `none` models an empty `UniqueFunction`).
* C++ `throw FutureError{code}` becomes `Except.error code`.
* Operations that may invoke a detached continuation outside the lock
  (`setStateDoneAndNotify`, `setContinuation`) return the continuation they
  invoke as an extra `Option κ` component; `none` means nothing is invoked.
* Blocking (`wait` on a cell that is not yet done) is modelled as the
  distinguished read outcome `CellRead.blocked`: in a sequential semantics a
  wait with no pending producer never returns.
-/

namespace Tclib

/-- `enum class FutureErrorCode` from future_errorcodes.hpp. -/
inductive FutureErrorCode where
  | broken_promise
  | future_already_retrieved
  | promise_already_satisfied
  | no_state
deriving DecidableEq, Repr

/-- The state of one `SharedState<Result>` object: `m_done`, `m_retrieved`,
`m_result`, `m_exception` and `m_then` (a continuation payload of type `κ`,
`none` when the stored `UniqueFunction` is empty). The mutex and condition
variable are synchronization devices with no sequential content. -/
structure Cell (α ε κ : Type) where
  done : Bool
  retrieved : Bool
  result : Option α
  exc : Option ε
  thenC : Option κ
deriving DecidableEq, Repr

/-- A freshly constructed `SharedState`: everything unset. -/
def freshCell (α ε κ : Type) : Cell α ε κ :=
  { done := false, retrieved := false, result := none, exc := none, thenC := none }

namespace Cell

variable {α ε κ : Type}

/-- `SharedState::checkState`: throws `promise_already_satisfied` if `m_done`. -/
def checkState (c : Cell α ε κ) : Except FutureErrorCode Unit :=
  if c.done then .error .promise_already_satisfied else .ok ()

/-- `SharedState::setStateDoneAndNotify`: under the lock sets `m_done = true`
and swaps `m_then` into a local; after releasing the lock invokes the detached
continuation if non-empty. Returns the new cell and the continuation that the
caller invokes (`none` when `m_then` was empty). -/
def setStateDoneAndNotify (c : Cell α ε κ) : Cell α ε κ × Option κ :=
  ({ c with done := true, thenC := none }, c.thenC)

/-- `SharedState::setValue`: `checkState()`, store the result, then
`setStateDoneAndNotify()`. -/
def setValue (c : Cell α ε κ) (v : α) :
    Except FutureErrorCode (Cell α ε κ × Option κ) :=
  match c.checkState with
  | .error e => .error e
  | .ok _ => .ok (setStateDoneAndNotify { c with result := some v })

/-- `SharedState::setException`: `checkState()`, store the exception, then
`setStateDoneAndNotify()`. -/
def setException (c : Cell α ε κ) (e : ε) :
    Except FutureErrorCode (Cell α ε κ × Option κ) :=
  match c.checkState with
  | .error err => .error err
  | .ok _ => .ok (setStateDoneAndNotify { c with exc := some e })

/-- `SharedState::setContinuation`: under the lock, if not done, swap the
argument into `m_then` (replacing any previous continuation, which is
destroyed un-run); if already done, invoke the argument (when non-empty) after
releasing the lock. Returns the new cell and the continuation invoked. -/
def setContinuation (c : Cell α ε κ) (k : Option κ) : Cell α ε κ × Option κ :=
  if c.done then (c, k) else ({ c with thenC := k }, none)

/-- `SharedState::resetContinuation`: swaps `m_then` into a local that is
destroyed without being invoked. Returns the new cell and the continuation
invoked by this operation, which is always `none`. -/
def resetContinuation (c : Cell α ε κ) : Cell α ε κ × Option κ :=
  ({ c with thenC := none }, none)

/-- `SharedState::setAndThrowIfRetrieved`: `m_retrieved.test_and_set()` sets
the flag and throws `future_already_retrieved` if it was already set. -/
def setAndThrowIfRetrieved (c : Cell α ε κ) : Except FutureErrorCode (Cell α ε κ) :=
  if c.retrieved then .error .future_already_retrieved
  else .ok { c with retrieved := true }

end Cell

/-- Outcome of reading a cell via `SharedState::getValue` (which first
`wait()`s): `blocked` if the cell is not done (the wait never returns in a
sequential semantics), otherwise the stored exception is re-raised if present,
otherwise `m_result.value()` — `badAccess` is the out-of-contract read of an
empty optional. -/
inductive CellRead (ε α : Type) where
  | blocked
  | excRaised (e : ε)
  | value (a : α)
  | badAccess
deriving DecidableEq, Repr

/-- `SharedState::getValue`: `wait()`, then rethrow `m_exception` if set,
else return `m_result.value()`. -/
def Cell.getValue {α ε κ : Type} (c : Cell α ε κ) : CellRead ε α :=
  if c.done then
    match c.exc with
    | some e => .excRaised e
    | none =>
      match c.result with
      | some v => .value v
      | none => .badAccess
  else .blocked

/-! ### Handle-level model

A `World` threads one cell together with the handles that share it by
`std::shared_ptr`: `pHolds` is `Promise::m_statePtr != nullptr`, `fHolds` is
`Future::m_statePtr != nullptr`, `sfHolds` is `SharedFuture::m_statePtr !=
nullptr`. `Future::valid()` is `fHolds`. -/
structure World (α ε κ : Type) where
  cell : Cell α ε κ
  pHolds : Bool
  fHolds : Bool
  sfHolds : Bool
deriving DecidableEq, Repr

/-- `Promise::Promise()`: makes a fresh shared state; no future or shared
future handle exists yet. -/
def freshWorld (α ε κ : Type) : World α ε κ :=
  { cell := freshCell α ε κ, pHolds := true, fHolds := false, sfHolds := false }

/-- Result of `Future::get` / `SharedFuture::get` at the handle level:
either the value, a re-raised user exception, a thrown `FutureError`,
a forever-blocking wait, or the out-of-contract empty-optional read. -/
inductive GetResult (ε α : Type) where
  | ok (a : α)
  | userExc (e : ε)
  | futureErr (c : FutureErrorCode)
  | blockedForever
  | badAccess
deriving DecidableEq, Repr

/-- Embeds a `CellRead` into a handle-level `GetResult`. -/
def CellRead.toGet {ε α : Type} : CellRead ε α → GetResult ε α
  | .blocked => .blockedForever
  | .excRaised e => .userExc e
  | .value a => .ok a
  | .badAccess => .badAccess

/-- Outcome of `Future::wait` / `SharedFuture::wait` at the handle level. -/
inductive WaitResult where
  | ready
  | blockedForever
  | futureErr (c : FutureErrorCode)
deriving DecidableEq, Repr

namespace World

variable {α ε κ : Type}

/-- `Promise::setValue`: throws `no_state` if moved-from, else delegates to
the cell; the second component is the continuation the call invokes. -/
def promiseSetValue (w : World α ε κ) (v : α) :
    Except FutureErrorCode (World α ε κ × Option κ) :=
  if w.pHolds then
    match w.cell.setValue v with
    | .error e => .error e
    | .ok (c, ran) => .ok ({ w with cell := c }, ran)
  else .error .no_state

/-- `Promise::setException`: throws `no_state` if moved-from, else delegates
to the cell. -/
def promiseSetException (w : World α ε κ) (e : ε) :
    Except FutureErrorCode (World α ε κ × Option κ) :=
  if w.pHolds then
    match w.cell.setException e with
    | .error err => .error err
    | .ok (c, ran) => .ok ({ w with cell := c }, ran)
  else .error .no_state

/-- `Promise::getFuture`: throws `no_state` if moved-from, else
`setAndThrowIfRetrieved()` and hands out the (single) future handle. -/
def promiseGetFuture (w : World α ε κ) : Except FutureErrorCode (World α ε κ) :=
  if w.pHolds then
    match w.cell.setAndThrowIfRetrieved with
    | .error e => .error e
    | .ok c => .ok { w with cell := c, fHolds := true }
  else .error .no_state

/-- `Promise::~Promise()`: if the promise still holds its state pointer,
`resetContinuation()` on the cell; never invokes a continuation (second
component) and releases the promise handle. -/
def promiseDrop (w : World α ε κ) : World α ε κ × Option κ :=
  if w.pHolds then
    let (c, ran) := w.cell.resetContinuation
    ({ w with cell := c, pHolds := false }, ran)
  else ({ w with pHolds := false }, none)

/-- `Future::get`: throws `no_state` if invalid; otherwise moves
`m_statePtr` into a local (so the handle is invalid afterwards, on every
path) and calls `getValue()` on it. -/
def futureGet (w : World α ε κ) : GetResult ε α × World α ε κ :=
  if w.fHolds then (w.cell.getValue.toGet, { w with fHolds := false })
  else (.futureErr .no_state, w)

/-- `Future::wait`: throws `no_state` if invalid; otherwise waits on the
cell without touching the handle. -/
def futureWait (w : World α ε κ) : WaitResult × World α ε κ :=
  if w.fHolds then
    (if w.cell.done then .ready else .blockedForever, w)
  else (.futureErr .no_state, w)

/-- `Future::valid`. -/
def futureValid (w : World α ε κ) : Bool := w.fHolds

/-- `Future::share` (noexcept): moves `m_statePtr` into a `SharedFuture`,
even when null; the original future is invalid afterwards. -/
def futureShare (w : World α ε κ) : World α ε κ :=
  { w with fHolds := false, sfHolds := w.fHolds }

/-- `Future::then`: throws `no_state` if invalid; otherwise builds the
continuation (payload `k`), moves `m_statePtr` out of the handle, and calls
`setContinuation` on the cell. The second component is the continuation the
call invokes (non-`none` exactly when the cell was already completed). The
new promise/future pair lives in its own world and is not tracked here. -/
def futureThen (w : World α ε κ) (k : κ) :
    Except FutureErrorCode (World α ε κ × Option κ) :=
  if w.fHolds then
    let (c, ran) := w.cell.setContinuation (some k)
    .ok ({ w with cell := c, fHolds := false }, ran)
  else .error .no_state

/-- `SharedFuture::get`: throws `no_state` if invalid; otherwise
`getValue()` on the cell, leaving the handle valid. -/
def sharedFutureGet (w : World α ε κ) : GetResult ε α × World α ε κ :=
  if w.sfHolds then (w.cell.getValue.toGet, w)
  else (.futureErr .no_state, w)

/-- `SharedFuture::wait`: throws `no_state` if invalid; otherwise waits on
the cell. -/
def sharedFutureWait (w : World α ε κ) : WaitResult × World α ε κ :=
  if w.sfHolds then
    (if w.cell.done then .ready else .blockedForever, w)
  else (.futureErr .no_state, w)

end World

/-! ### The continuation chain built by `Future::then`

`Future::then(f)` builds the closure
`[state, p, f] { try { Future fut(std::move(state)); p.setValue(f(std::move(fut))); }
catch (...) { p.setException(std::current_exception()); } }`.
For the chaining property the user function is `fun fut => g (fut.get())`:
`fut.get()` reads the source cell (re-raising its stored exception), `g` runs
on the value and may itself throw. A user function is modelled as
`α → Except ε β`. -/

/-- The `f(std::move(futureContinuation))` part of the `then` closure: read
the source cell through a `Future` reconstructed from the captured state, and
apply the user function `g` to the value. The result is the `Except` that the
`try`/`catch` pushes into the captured promise (`.error` = the catch branch).
`none` models the out-of-contract case where the closure runs before the
source cell is completed (it would block) or reads an empty optional. The
`Bool` records whether `g`'s body actually ran. -/
def runThenClosure {α β ε κ : Type} (src : Cell α ε κ) (g : α → Except ε β) :
    Option (Except ε β) × Bool :=
  match src.getValue with
  | .value a => (some (g a), true)
  | .excRaised e => (some (.error e), false)
  | .blocked => (none, false)
  | .badAccess => (none, false)

/-- The `p.setValue(...)` / `p.setException(...)` part of the `then` closure:
forward the user function's outcome into the destination cell. -/
def pushToPromise {β ε κ : Type} (dst : Cell β ε κ) (r : Except ε β) :
    Except FutureErrorCode (Cell β ε κ × Option κ) :=
  match r with
  | .ok b => dst.setValue b
  | .error e => dst.setException e

/-- The program `promise.getFuture().then(g).then(h); promise.setValue(v)` of
the chaining property, run to completion. Three cells: `c0` (the promise's),
`c1` (made by `.then(g)`), `c2` (made by `.then(h)`); each `then` marks its
new cell retrieved via `Promise::getFuture` and attaches a continuation token
to the previous cell via `setContinuation`. `setValue v` on `c0` detaches and
runs the first closure, whose `pushToPromise` into `c1` detaches and runs the
second. Returns the final cell `c2` together with how many times `g`'s body
ran and how many times `h`'s body ran. Unreachable error branches return the
current state unchanged. -/
def chain2 {α β γ ε : Type} (g : α → Except ε β) (h : β → Except ε γ) (v : α) :
    Cell γ ε Unit × Nat × Nat :=
  let c0 : Cell α ε Unit := { freshCell α ε Unit with retrieved := true }
  let c1 : Cell β ε Unit := { freshCell β ε Unit with retrieved := true }
  let c2 : Cell γ ε Unit := { freshCell γ ε Unit with retrieved := true }
  let (c0, _) := c0.setContinuation (some ())
  let (c1, _) := c1.setContinuation (some ())
  match c0.setValue v with
  | .error _ => (c2, 0, 0)
  | .ok (c0, run0) =>
    match run0 with
    | none => (c2, 0, 0)
    | some _ =>
      let (res0, gRan) := runThenClosure c0 g
      let gc := if gRan then 1 else 0
      match res0 with
      | none => (c2, gc, 0)
      | some r =>
        match pushToPromise c1 r with
        | .error _ => (c2, gc, 0)
        | .ok (c1, run1) =>
          match run1 with
          | none => (c2, gc, 0)
          | some _ =>
            let (res1, hRan) := runThenClosure c1 h
            let hc := if hRan then 1 else 0
            match res1 with
            | none => (c2, gc, hc)
            | some r1 =>
              match pushToPromise c2 r1 with
              | .error _ => (c2, gc, hc)
              | .ok (c2, _) => (c2, gc, hc)

/-! ### UniqueFunction (uniquefunction.hpp) -/

/-- The dispatch table a `UniqueFunction` points at: either the static
`EmptyVtable` (whose invoke entry throws `std::bad_function_call`) or the
per-closure-type `UniqueFunctionVtable` whose invoke entry calls the stored
closure. The storage (tiny in-place buffer vs. heap pointer) carries no
sequential content beyond the closure itself. -/
inductive VtableKind (α ρ : Type) where
  | emptyVt
  | holds (f : α → ρ)

/-- The exception thrown by the `EmptyVtable` invoke entry. -/
inductive CallError where
  | bad_function_call
deriving DecidableEq, Repr

/-- `UniqueFunction<R(Arg)>`: a vtable pointer plus storage. -/
structure UniqueFunction (α ρ : Type) where
  vtable : VtableKind α ρ

namespace UniqueFunction

variable {α ρ : Type}

/-- `UniqueFunction()`: points at `EmptyVtable`. -/
def empty (α ρ : Type) : UniqueFunction α ρ := ⟨.emptyVt⟩

/-- `UniqueFunction(std::nullptr_t)`: points at `EmptyVtable`. -/
def ofNullptr (α ρ : Type) : UniqueFunction α ρ := ⟨.emptyVt⟩

/-- `UniqueFunction(F&& closure)`: selects the closure's vtable and stores
the closure (tiny or big, transparently). -/
def ofClosure (f : α → ρ) : UniqueFunction α ρ := ⟨.holds f⟩

/-- `operator()`: dispatches through the vtable's invoke entry; the
`EmptyVtable` entry throws `std::bad_function_call`. -/
def call (u : UniqueFunction α ρ) (a : α) : Except CallError ρ :=
  match u.vtable with
  | .emptyVt => .error .bad_function_call
  | .holds f => .ok (f a)

/-- `UniqueFunction(UniqueFunction&& other)`: exchanges the source's vtable
pointer with `EmptyVtable` and relocates the stored object. Returns
(new object, source after the move). -/
def moveCtor (src : UniqueFunction α ρ) : UniqueFunction α ρ × UniqueFunction α ρ :=
  (⟨src.vtable⟩, ⟨.emptyVt⟩)

/-- `operator bool`: true iff the vtable pointer is not `EmptyVtable`. -/
def toBool (u : UniqueFunction α ρ) : Bool :=
  match u.vtable with
  | .emptyVt => false
  | .holds _ => true

end UniqueFunction

/-! ### Concrete test programs -/

/-- The round-trip program in producer-first order:
`promise.setValue(42); auto f = promise.getFuture(); f.get()`. -/
def roundTripA : GetResult Nat Nat :=
  match (freshWorld Nat Nat Unit).promiseSetValue 42 with
  | .error err => .futureErr err
  | .ok (w1, _) =>
    match w1.promiseGetFuture with
    | .error err => .futureErr err
    | .ok w2 => (w2.futureGet).1

/-- The round-trip program in consumer-first order:
`auto f = promise.getFuture(); promise.setValue(42); f.get()`. -/
def roundTripB : GetResult Nat Nat :=
  match (freshWorld Nat Nat Unit).promiseGetFuture with
  | .error err => .futureErr err
  | .ok w1 =>
    match w1.promiseSetValue 42 with
    | .error err => .futureErr err
    | .ok (w2, _) => (w2.futureGet).1

/-- `promise.getFuture(); promise.setException(e); future.get()`. -/
def excProgFutureGet (α ε : Type) (e : ε) : GetResult ε α :=
  match (freshWorld α ε Unit).promiseGetFuture with
  | .error err => .futureErr err
  | .ok w1 =>
    match w1.promiseSetException e with
    | .error err => .futureErr err
    | .ok (w2, _) => (w2.futureGet).1

/-- `promise.getFuture(); promise.setException(e); future.share().get()`. -/
def excProgSharedGet (α ε : Type) (e : ε) : GetResult ε α :=
  match (freshWorld α ε Unit).promiseGetFuture with
  | .error err => .futureErr err
  | .ok w1 =>
    match w1.promiseSetException e with
    | .error err => .futureErr err
    | .ok (w2, _) => ((w2.futureShare).sharedFutureGet).1

/-! ### Observations for the error taxonomy -/

/-- Whether a `FutureError`-throwing operation threw `broken_promise`. -/
def raisesBrokenE {C : Type} : Except FutureErrorCode C → Bool
  | .error .broken_promise => true
  | _ => false

/-- Whether a handle-level get raised a `broken_promise` `FutureError`. -/
def raisesBrokenG {ε α : Type} : GetResult ε α → Bool
  | .futureErr .broken_promise => true
  | _ => false

/-- Whether a handle-level wait raised a `broken_promise` `FutureError`. -/
def raisesBrokenW : WaitResult → Bool
  | .futureErr .broken_promise => true
  | _ => false

/-! ### Theorems -/

/-- C1: once `setValue x` has succeeded on a cell (a pending cell: not done,
no stored exception), every subsequent `setValue y` or `setException e` on
that cell fails with `promise_already_satisfied`, the stored outcome is
unaffected (the error path mutates nothing), and a later `get()` still
returns `x`. -/
theorem setValue_wins_forever {α ε κ : Type} (x y : α) (e : ε)
    (res : Option α) (th : Option κ) (rB : Bool) :
    let c : Cell α ε κ :=
      { done := false, retrieved := rB, result := res, exc := none, thenC := th }
    let c1 : Cell α ε κ :=
      { done := true, retrieved := rB, result := some x, exc := none, thenC := none }
    c.setValue x = .ok (c1, th)
    ∧ c1.setValue y = .error .promise_already_satisfied
    ∧ c1.setException e = .error .promise_already_satisfied
    ∧ c1.getValue = .value x := by
  simp [Cell.setValue, Cell.setException, Cell.checkState, Cell.setStateDoneAndNotify,
    Cell.getValue]

/-- C2: `promise.getFuture().then(g).then(h)` followed by
`promise.setValue v` makes `get()` on the final future return the result of
`h (g v)` — the value if both succeed, `h`'s exception if `h` throws, and if
`g` throws, the final future re-raises `g`'s exception and `h`'s body is
never invoked (`g` runs exactly once; `h` runs exactly once iff `g`
returned a value). -/
theorem then_chain_result {α β γ ε : Type} (g : α → Except ε β) (h : β → Except ε γ)
    (v : α) :
    (chain2 g h v).1.getValue =
      (match g v with
       | .error e => .excRaised e
       | .ok y =>
         match h y with
         | .error e => .excRaised e
         | .ok z => .value z)
    ∧ (chain2 g h v).2.1 = 1
    ∧ (chain2 g h v).2.2 = (match g v with | .error _ => 0 | .ok _ => 1) := by
  rcases hg : g v with e | y
  · simp [chain2, Cell.setContinuation, Cell.setValue, Cell.setException,
      Cell.checkState, Cell.setStateDoneAndNotify, runThenClosure, pushToPromise,
      Cell.getValue, freshCell, hg]
  · rcases hh : h y with e | z <;>
      simp [chain2, Cell.setContinuation, Cell.setValue, Cell.setException,
        Cell.checkState, Cell.setStateDoneAndNotify, runThenClosure, pushToPromise,
        Cell.getValue, freshCell, hg, hh]

/-- C3: a non-empty continuation attached to a pending cell with no prior
continuation is invoked exactly once in either order: attach-then-complete
(the completing `setValue`/`setException` invokes it, the attachment itself
invokes nothing) and complete-then-attach (the `setContinuation` call invokes
it immediately, the completion invoked nothing) — never zero times and never
twice. -/
theorem continuation_runs_exactly_once {α ε κ : Type} (k : κ) (v : α) (e : ε)
    (res : Option α) (ex : Option ε) (rB : Bool) :
    let c : Cell α ε κ :=
      { done := false, retrieved := rB, result := res, exc := ex, thenC := none }
    let cA : Cell α ε κ :=
      { done := false, retrieved := rB, result := res, exc := ex, thenC := some k }
    let cBv : Cell α ε κ :=
      { done := true, retrieved := rB, result := some v, exc := ex, thenC := none }
    let cBe : Cell α ε κ :=
      { done := true, retrieved := rB, result := res, exc := some e, thenC := none }
    -- attach before completion: attach invokes nothing, completion invokes k
    c.setContinuation (some k) = (cA, none)
    ∧ cA.setValue v = .ok (cBv, some k)
    ∧ cA.setException e = .ok (cBe, some k)
    -- completion before attach: completion invokes nothing, attach invokes k
    ∧ c.setValue v = .ok (cBv, none)
    ∧ c.setException e = .ok (cBe, none)
    ∧ cBv.setContinuation (some k) = (cBv, some k)
    ∧ cBe.setContinuation (some k) = (cBe, some k) := by
  simp [Cell.setContinuation, Cell.setValue, Cell.setException, Cell.checkState,
    Cell.setStateDoneAndNotify]

/-- C4: the round-trip programs — `setValue 42` before `getFuture()` and
`getFuture()` before `setValue 42` — both make `get()` return 42. -/
theorem roundTrip_yields_42 : roundTripA = .ok 42 ∧ roundTripB = .ok 42 := by
  constructor <;> rfl

/-- C5: for every exception `e`, after `setException e` the consumer's
`get()` — through a `Future` or through a `SharedFuture` over the same
cell — re-raises exactly `e`, not a value. -/
theorem exception_propagates (α ε : Type) (e : ε) :
    excProgFutureGet α ε e = .userExc e ∧ excProgSharedGet α ε e = .userExc e := by
  constructor <;> rfl

/-- C6: for every result type, `getFuture()` on a fresh promise succeeds and
hands out the future handle over the promise's cell (`fHolds = true`); a
second `getFuture()` on the same promise fails with
`future_already_retrieved`. -/
theorem getFuture_twice (α ε κ : Type) :
    (freshWorld α ε κ).promiseGetFuture =
      .ok { cell := { freshCell α ε κ with retrieved := true },
            pHolds := true, fHolds := true, sfHolds := false }
    ∧ ({ cell := { freshCell α ε κ with retrieved := true },
         pHolds := true, fHolds := true, sfHolds := false } : World α ε κ).promiseGetFuture
        = .error .future_already_retrieved := by
  constructor <;> rfl

/-- C7: on a valid future, `get()`, `share()` and `then()` each consume the
handle (`valid() = false` afterwards) while `wait()` leaves the world — in
particular the handle — untouched; on a future with no cell (the same world
with the handle released, covering both default-constructed and consumed
handles), `get()`, `wait()` and `then()` all fail with `no_state`. -/
theorem handle_lifecycle {α ε κ : Type} (c : Cell α ε κ) (pB sB : Bool) (k : κ) :
    let w : World α ε κ := { cell := c, pHolds := pB, fHolds := true, sfHolds := sB }
    let w' : World α ε κ := { cell := c, pHolds := pB, fHolds := false, sfHolds := sB }
    (w.futureGet).2.futureValid = false
    ∧ (w.futureShare).futureValid = false
    ∧ w.futureThen k =
        .ok ({ cell := (c.setContinuation (some k)).1, pHolds := pB,
               fHolds := false, sfHolds := sB },
             (c.setContinuation (some k)).2)
    ∧ (w.futureWait).2 = w
    ∧ w'.futureGet = (.futureErr .no_state, w')
    ∧ w'.futureWait = (.futureErr .no_state, w')
    ∧ w'.futureThen k = .error .no_state := by
  rcases hsc : c.setContinuation (some k) with ⟨c2, ran⟩
  simp [World.futureGet, World.futureShare, World.futureThen, World.futureWait,
    World.futureValid, hsc]

/-- C8: destroying a promise that still owns its cell clears the cell's
stored continuation and invokes nothing (the second component of
`promiseDrop` — the continuation invoked — is `none`); and no operation of
the system ever raises a `broken_promise` error. -/
theorem promise_drop_discards_never_broken {α ε κ : Type} (c : Cell α ε κ)
    (fB sB : Bool) :
    World.promiseDrop { cell := c, pHolds := true, fHolds := fB, sfHolds := sB }
      = ({ cell := { c with thenC := none }, pHolds := false, fHolds := fB,
           sfHolds := sB }, none)
    ∧ (∀ (c0 : Cell α ε κ) (v : α), raisesBrokenE (c0.setValue v) = false)
    ∧ (∀ (c0 : Cell α ε κ) (e : ε), raisesBrokenE (c0.setException e) = false)
    ∧ (∀ c0 : Cell α ε κ, raisesBrokenE c0.setAndThrowIfRetrieved = false)
    ∧ (∀ (w : World α ε κ) (v : α), raisesBrokenE (w.promiseSetValue v) = false)
    ∧ (∀ (w : World α ε κ) (e : ε), raisesBrokenE (w.promiseSetException e) = false)
    ∧ (∀ w : World α ε κ, raisesBrokenE w.promiseGetFuture = false)
    ∧ (∀ w : World α ε κ, raisesBrokenG (w.futureGet).1 = false)
    ∧ (∀ w : World α ε κ, raisesBrokenW (w.futureWait).1 = false)
    ∧ (∀ (w : World α ε κ) (k : κ), raisesBrokenE (w.futureThen k) = false)
    ∧ (∀ w : World α ε κ, raisesBrokenG (w.sharedFutureGet).1 = false)
    ∧ (∀ w : World α ε κ, raisesBrokenW (w.sharedFutureWait).1 = false) := by
  refine ⟨rfl, ?_, ?_, ?_, ?_, ?_, ?_, ?_, ?_, ?_, ?_, ?_⟩
  · intro c0 v
    cases hd : c0.done <;>
      simp [Cell.setValue, Cell.checkState, Cell.setStateDoneAndNotify, hd,
        raisesBrokenE]
  · intro c0 e
    cases hd : c0.done <;>
      simp [Cell.setException, Cell.checkState, Cell.setStateDoneAndNotify, hd,
        raisesBrokenE]
  · intro c0
    cases hr : c0.retrieved <;> simp [Cell.setAndThrowIfRetrieved, hr, raisesBrokenE]
  · intro w v
    cases hp : w.pHolds <;> cases hd : w.cell.done <;>
      simp [World.promiseSetValue, Cell.setValue, Cell.checkState,
        Cell.setStateDoneAndNotify, hp, hd, raisesBrokenE]
  · intro w e
    cases hp : w.pHolds <;> cases hd : w.cell.done <;>
      simp [World.promiseSetException, Cell.setException, Cell.checkState,
        Cell.setStateDoneAndNotify, hp, hd, raisesBrokenE]
  · intro w
    cases hp : w.pHolds <;> cases hr : w.cell.retrieved <;>
      simp [World.promiseGetFuture, Cell.setAndThrowIfRetrieved, hp, hr,
        raisesBrokenE]
  · intro w
    cases hf : w.fHolds <;> simp [World.futureGet, hf, raisesBrokenG]
    cases hg : w.cell.getValue <;> simp [CellRead.toGet, raisesBrokenG]
  · intro w
    cases hf : w.fHolds <;> cases hd : w.cell.done <;>
      simp [World.futureWait, hf, hd, raisesBrokenW]
  · intro w k
    rcases hsc : w.cell.setContinuation (some k) with ⟨c2, ran⟩
    cases hf : w.fHolds <;> simp [World.futureThen, hf, hsc, raisesBrokenE]
  · intro w
    cases hs : w.sfHolds <;> simp [World.sharedFutureGet, hs, raisesBrokenG]
    cases hg : w.cell.getValue <;> simp [CellRead.toGet, raisesBrokenG]
  · intro w
    cases hs : w.sfHolds <;> cases hd : w.cell.done <;>
      simp [World.sharedFutureWait, hs, hd, raisesBrokenW]

/-- C9: a `UniqueFunction` holding a closure forwards its argument to that
closure and returns its result on every invocation (also after being the
target of a move); invoking an empty instance — default-constructed,
nullptr-constructed, or the source of a move — throws
`std::bad_function_call`, never a silent no-op. -/
theorem uniqueFunction_invoke {α ρ : Type} (f : α → ρ) (a : α) :
    (UniqueFunction.ofClosure f).call a = .ok (f a)
    ∧ ((UniqueFunction.moveCtor (UniqueFunction.ofClosure f)).1).call a = .ok (f a)
    ∧ (UniqueFunction.empty α ρ).call a = .error .bad_function_call
    ∧ (UniqueFunction.ofNullptr α ρ).call a = .error .bad_function_call
    ∧ (∀ u : UniqueFunction α ρ,
        ((UniqueFunction.moveCtor u).2).call a = .error .bad_function_call)
    ∧ (UniqueFunction.ofClosure f).toBool = true
    ∧ (UniqueFunction.empty α ρ).toBool = false := by
  exact ⟨rfl, rfl, rfl, rfl, fun _ => rfl, rfl, rfl⟩

/-- C10: `Future::get()` consumes the handle even on the error path — on a
valid future over a cell holding an exception, `get()` re-raises the
exception and leaves the handle invalid, and a second `get()` fails with
`no_state` while leaving the handle state unchanged (the `no_state` check is
the only path that mutates nothing). -/
theorem get_consumes_on_error_path {α ε κ : Type} (e : ε) (res : Option α)
    (th : Option κ) (rB pB sB : Bool) :
    let c : Cell α ε κ :=
      { done := true, retrieved := rB, result := res, exc := some e, thenC := th }
    let w : World α ε κ := { cell := c, pHolds := pB, fHolds := true, sfHolds := sB }
    let w' : World α ε κ := { cell := c, pHolds := pB, fHolds := false, sfHolds := sB }
    w.futureGet = (.userExc e, w')
    ∧ w'.futureValid = false
    ∧ w'.futureGet = (.futureErr .no_state, w') := by
  simp [World.futureGet, World.futureValid, Cell.getValue, CellRead.toGet]

end Tclib
